import Mathlib

/-!
Verification of `mjpegsw.py` (MJPEG stream webcam server).

Shallow embedding: each Python construct relevant to the claims is
translated into an executable Lean definition.

* `CameraControl` models the lock-protected frame store (the Python
  `CameraControl` class).  The Python methods each take the instance lock,
  so every method is a single atomic state transition; here they are pure
  functions on the state record.
* Frames are opaque values; pixel contents are outside every claim, so a
  frame is identified by a natural number.
-/

/-- A camera frame.  Pixel content is opaque to all verified properties,
so frames are identified by a tag. -/
abbrev Frame : Type := Nat

/-- State of the Python `CameraControl` object: the `capturing` flag and the
latest image slot (`self.img`, `None` until the first publish).  The
instance lock is implicit: each method runs atomically. -/
structure CameraControl where
  capturing : Bool
  img : Option Frame
deriving DecidableEq, Repr

/-- `CameraControl.__init__`: `capturing = True`, `img = None`. -/
def CameraControl.init : CameraControl := ⟨true, none⟩

/-- `stop_capturing`: under the lock, set `capturing = False`. -/
def CameraControl.stop_capturing (cc : CameraControl) : CameraControl :=
  ⟨false, cc.img⟩

/-- `start_capturing`: under the lock, set `capturing = True`. -/
def CameraControl.start_capturing (cc : CameraControl) : CameraControl :=
  ⟨true, cc.img⟩

/-- `update_image(new_img)`: under the lock, `self.img = new_img`. -/
def CameraControl.update_image (cc : CameraControl) (new_img : Frame) : CameraControl :=
  ⟨cc.capturing, some new_img⟩

/-- `get_image()`: under the lock, return `self.img`. -/
def CameraControl.get_image (cc : CameraControl) : Option Frame :=
  cc.img

/-- `is_capturing()`: under the lock, return `self.capturing`. -/
def CameraControl.is_capturing (cc : CameraControl) : Bool :=
  cc.capturing

/-- The operations callable on a `CameraControl` instance (its public
methods that mutate or could mutate the state). -/
inductive CCOp where
  | stop
  | start
  | publish (f : Frame)
deriving DecidableEq, Repr

/-- Apply one store operation. -/
def applyOp (cc : CameraControl) : CCOp → CameraControl
  | .stop => cc.stop_capturing
  | .start => cc.start_capturing
  | .publish f => cc.update_image f

/-- Apply a sequence of store operations in order. -/
def applyOps (cc : CameraControl) (ops : List CCOp) : CameraControl :=
  ops.foldl applyOp cc

/-- An event in an interleaved history of the single writer's
`update_image` calls and any number of readers' `get_image` calls.  The
store lock serialises the methods, so a concurrent history is exactly a
linear sequence of these atomic events. -/
inductive StoreEvent where
  | publish (f : Frame)
  | read
deriving DecidableEq, Repr

/-- The frames published (in order) in an event sequence. -/
def publishedFrames : List StoreEvent → List Frame
  | [] => []
  | .publish f :: rest => f :: publishedFrames rest
  | .read :: rest => publishedFrames rest

/-- Run an event sequence against the store, collecting the value each
`read` (i.e. `get_image` / `latest()`) returns. -/
def runTrace : CameraControl → List StoreEvent → List (Option Frame)
  | _, [] => []
  | cc, .publish f :: rest => runTrace (cc.update_image f) rest
  | cc, .read :: rest => cc.get_image :: runTrace cc rest

/-- Helper: a read in a trace returns the starting image or a frame
published within the trace. -/
theorem runTrace_mem (evs : List StoreEvent) (cc : CameraControl) (r : Option Frame)
    (hr : r ∈ runTrace cc evs) :
    r = cc.img ∨ ∃ f, f ∈ publishedFrames evs ∧ r = some f := by
  induction evs generalizing cc with
  | nil => simp [runTrace] at hr
  | cons e rest ih =>
    cases e with
    | publish f =>
      rw [runTrace] at hr
      rcases ih (cc.update_image f) hr with h | ⟨g, hg, hrg⟩
      · exact Or.inr ⟨f, by simp [publishedFrames], h⟩
      · exact Or.inr ⟨g, by simp [publishedFrames, hg], hrg⟩
    | read =>
      rw [runTrace] at hr
      rcases List.mem_cons.mp hr with h | h
      · exact Or.inl h
      · rcases ih cc h with h' | ⟨g, hg, hrg⟩
        · exact Or.inl h'
        · exact Or.inr ⟨g, by simp [publishedFrames, hg], hrg⟩

/-!
## CamDaemon and its `capture` method

`CamDaemon.__init__` (lines 63-80) assigns exactly these instance
attributes: `camera_control`, `camera`, `capture_width`, `capture_height`,
`rotate_image`, `capture_api`, `delay`.  Notably the seventh constructor
parameter is stored as `self.delay`; no attribute named `fps` is ever
assigned, while `capture` (lines 106, 107, 133) reads `self.fps`.
-/

/-- The instance attributes assigned by `CamDaemon.__init__`. -/
def camDaemonInitAttrs : List String :=
  ["camera_control", "camera", "capture_width", "capture_height",
   "rotate_image", "capture_api", "delay"]

/-- The instance attributes read by `CamDaemon.capture`:
`self.capture_api` (91, 92), `self.camera` (92, 94), `self.capture_width`
(100-101, 114-115), `self.capture_height` (102-103, 114-115), `self.fps`
(106, 107, 133), `self.camera_control` (124, 131, 136), `self.rotate_image`
(127). -/
def captureReadAttrs : List String :=
  ["capture_api", "camera", "capture_width", "capture_height",
   "fps", "camera_control", "rotate_image"]

/-- A `CamDaemon` as left by `__init__`: exactly the attributes the
constructor assigns (the thread-base attributes are irrelevant here). -/
structure CamDaemon where
  camera_control : CameraControl
  camera : Int
  capture_width : Option Nat
  capture_height : Option Nat
  rotate_image : Bool
  capture_api : Option String
  delay : Rat
deriving DecidableEq

/-- The value of the `fps` attribute after `__init__`: absent.  `__init__`
assigns only the attributes in `camDaemonInitAttrs`; `fps` is not among
them (the frame-rate argument is stored as `delay`). -/
def CamDaemon.fpsAttr (_ : CamDaemon) : Option Rat := none

/-- Result of one `capture.read()` call inside the capture loop.
`cv2.VideoCapture.read` returns `(True, frame)` on success and
`(False, None)` when no frame is available; with
`setExceptionMode(True)` (line 123) it may instead raise. -/
inductive DeviceRead where
  | okFrame (f : Frame)
  | noFrame
  | raise (msg : String)
deriving DecidableEq, Repr

/-- `cv2.rotate(frame, ROTATE_180)`.  The pixel transform is opaque to all
verified properties; what matters is that rotating an actual frame
succeeds while rotating `None` (a failed read's frame) raises. -/
def rotate180 (f : Frame) : Frame := f

/-- Outcome of one iteration of the `while` loop body (lines 125-137),
before the `except` clause is applied:
`cont pub slept` = body completed, publishing `pub` (if any) and sleeping
`1/fps` seconds; `fault msg pub` = an exception `msg` was raised after
publishing `pub` (if any), to be caught by the `except` branch. -/
inductive TickOutcome where
  | cont (pub : Option Frame) (slept : Rat)
  | fault (msg : String) (pub : Option Frame)
deriving DecidableEq, Repr

/-- One iteration of the capture loop body, for a given `rotate_image`
flag and `fps` value.  Mirrors lines 126-133 in order:
`ret, frame = capture.read()`; `if rotate_image: frame = rotate(frame)`
(note: before the `ret` check, so a failed read's `None` frame is rotated
and raises); `if ret: update_image(frame)`; `sleep(1 / fps)` (unguarded:
raises `ZeroDivisionError` when `fps = 0` and `ValueError` from the
negative sleep length when `fps < 0`). -/
def captureTick (rotate_image : Bool) (fps : Rat) : DeviceRead → TickOutcome
  | .raise msg => .fault msg none
  | .noFrame =>
    if rotate_image then
      .fault "cv2.error: rotate on absent frame" none
    else if fps = 0 then
      .fault "ZeroDivisionError: division by zero" none
    else if fps < 0 then
      .fault "ValueError: sleep length must be non-negative" none
    else
      .cont none (1 / fps)
  | .okFrame f =>
    let f2 := if rotate_image then rotate180 f else f
    if fps = 0 then
      .fault "ZeroDivisionError: division by zero" (some f2)
    else if fps < 0 then
      .fault "ValueError: sleep length must be non-negative" (some f2)
    else
      .cont (some f2) (1 / fps)

/-- The capture loop (lines 124-137) run over a finite schedule of device
reads.  Exhausting the schedule models `is_capturing()` turning false via
an external `stop_capturing` call (the loop condition fails and control
falls through to `release`).  A `fault` tick models the `except` branch:
log, `stop_capturing()`, `break`.  Returns the final store state and the
frames published, in order. -/
def captureLoop (rotate_image : Bool) (fps : Rat) :
    CameraControl → List DeviceRead → CameraControl × List Frame
  | cc, [] => (cc, [])
  | cc, r :: rest =>
    if cc.is_capturing then
      match captureTick rotate_image fps r with
      | .cont pub _ =>
        match pub with
        | some f =>
          let (cc2, pubs) := captureLoop rotate_image fps (cc.update_image f) rest
          (cc2, f :: pubs)
        | none => captureLoop rotate_image fps cc rest
      | .fault _ pub =>
        match pub with
        | some f => ((cc.update_image f).stop_capturing, [f])
        | none => (cc.stop_capturing, [])
    else
      (cc, [])

/-- Result of a Python call: normal return or an uncaught exception
propagating to the caller. -/
inductive PyResult (α : Type) where
  | ok (a : α)
  | exn (msg : String)
deriving DecidableEq, Repr

/-- What one `capture()` invocation did. -/
structure CaptureResult where
  /-- Normal return, or the uncaught exception that ended the call. -/
  result : PyResult Unit
  /-- Number of `capture.release()` calls performed. -/
  releases : Nat
  /-- Whether `capture.set(CAP_PROP_FPS, fps)` ran (line 106 guards it
  with `fps > 0`). -/
  deviceFpsSet : Bool
  /-- Final state of the shared `camera_control`. -/
  cc : CameraControl
  /-- Frames published via `update_image`, in order. -/
  published : List Frame
deriving DecidableEq, Repr

/-- The body of `CamDaemon.capture` (lines 89-140), parameterised by the
value of the `self.fps` attribute lookup (`none` = attribute absent, as
`__init__` leaves it) and by the device read schedule.  The device is
opened at lines 91-94 before any `self.fps` read; if the attribute is
absent, line 106 raises `AttributeError` and the call unwinds without
reaching `capture.release()` (line 140).  Otherwise the loop runs and
both loop exits (normal and fault `break`) fall through to the single
`capture.release()`. -/
def captureRun (fpsAttr : Option Rat) (rotate_image : Bool)
    (cc : CameraControl) (reads : List DeviceRead) : CaptureResult :=
  match fpsAttr with
  | none =>
    ⟨.exn "AttributeError: CamDaemon object has no attribute fps",
      0, false, cc, []⟩
  | some fps =>
    let (cc2, pubs) := captureLoop rotate_image fps cc reads
    ⟨.ok (), 1, decide (0 < fps), cc2, pubs⟩

/-- `CamDaemon.capture` on an actual constructed daemon: the `self.fps`
lookups see the attribute state `__init__` left behind. -/
def CamDaemon.capture (d : CamDaemon) (reads : List DeviceRead) : CaptureResult :=
  captureRun d.fpsAttr d.rotate_image d.camera_control reads

/-- The daemon `main()` would construct with default arguments
(camera 0, no width/height, no rotate, no api hint, delay 0.2). -/
def defaultDaemon : CamDaemon :=
  ⟨CameraControl.init, 0, none, none, false, none, (1 : Rat) / 5⟩

/-!
## Stream producer (`create_stream_frame`) and snapshot handler (`snap`)
-/

/-- Bytes of an ASCII string (the byte values of its characters). -/
def asciiBytes (s : String) : List Nat :=
  s.toList.map Char.toNat

/-- Result of `cv2.imencode(".jpg", img)`: the encoded bytes, or a raised
encoding error with its message. -/
inductive EncodeResult where
  | ok (buf : List Nat)
  | err (msg : String)
deriving DecidableEq, Repr

/-- The multipart chunk yielded at line 149 for encoded JPEG bytes `buf`:
`b"--frame\r\nContent-Type: image/jpeg\r\n\r\n" + frame + b"\r\n"`. -/
def streamChunk (buf : List Nat) : List Nat :=
  asciiBytes "--frame\r\nContent-Type: image/jpeg\r\n\r\n" ++ buf ++ asciiBytes "\r\n"

/-- What one iteration of the `while True` loop in `create_stream_frame`
(lines 143-153) did. -/
structure StreamTick where
  /-- The chunk yielded this iteration, if any. -/
  emitted : Option (List Nat)
  /-- The message printed this iteration, if any. -/
  logged : Option String
  /-- Whether the iteration reached the `sleep(0.1)` at line 153 before
  the next `get_image` read. -/
  slept : Bool
deriving DecidableEq, Repr

/-- One iteration of `create_stream_frame`, given the current store image
and the encoder.  Mirrors lines 144-153: read `get_image()`; if present,
try `imencode` and yield the framed chunk; on an encoding exception print
the error and `continue` — which jumps back to the loop head, skipping
the `sleep(0.1)`; the absent-image and successful paths fall through to
the sleep. -/
def create_stream_frame_tick (img : Option Frame)
    (enc : Frame → EncodeResult) : StreamTick :=
  match img with
  | none => ⟨none, none, true⟩
  | some f =>
    match enc f with
    | .ok buf => ⟨some (streamChunk buf), none, true⟩
    | .err e => ⟨none, some ("Failed to encode image: " ++ e), false⟩

/-- An HTTP response as produced by `send_file` in the snapshot handler:
`send_file` always yields a success (200) response with the given body
bytes and mimetype. -/
structure SnapResponse where
  success : Bool
  body : List Nat
  mimetype : String
deriving DecidableEq, Repr

/-- The `/snap.jpg` handler (lines 169-181), given the store state and the
JPEG encoder used on the non-empty path (cvtColor + PIL save, opaque).
Mirrors line 172: `if not camera_control.is_capturing() or
camera_control.img is None:` return `send_file(BytesIO(), ...)` — a
success response with an empty body and mimetype `image/jpeg`; otherwise
encode `camera_control.img` and return it with the same mimetype. -/
def snap (cc : CameraControl) (enc : Frame → List Nat) : SnapResponse :=
  match cc.is_capturing, cc.img with
  | true, some f => ⟨true, enc f, "image/jpeg"⟩
  | true, none => ⟨true, [], "image/jpeg"⟩
  | false, _ => ⟨true, [], "image/jpeg"⟩

/-!
## Argument parsing (`handle_args`) and `main`

`handle_args` builds an `argparse` parser whose destinations are the keys
of the returned `vars(parser.parse_args())` dictionary; every argument
has either a default or is optional (`required=False` options parse to
`None`), so for every accepted argument list the returned dictionary has
exactly these keys.
-/

/-- The keys of the dictionary `handle_args` returns: the `argparse`
destinations `port`, `camera`, `ipaddress`, `width`, `height`, `rotate`,
`capture_api`, `fps` (lines 188-241). -/
def handle_args_keys : List String :=
  ["port", "camera", "ipaddress", "width", "height", "rotate",
   "capture_api", "fps"]

/-- The keys `main()` looks up in `params`, in evaluation order (lines
248-274): `height`, `width`, `rotate`, `capture_api`, `delay` (line 256),
`camera`, `width`, `height`, `capture_api`, `rotate`, `delay` (line 268),
`ipaddress`, `port`. -/
def main_read_keys : List String :=
  ["height", "width", "rotate", "capture_api", "delay",
   "camera", "width", "height", "capture_api", "rotate", "delay",
   "ipaddress", "port"]

/-- The first key `main()` reads that the dictionary lacks: a Python
`dict[key]` lookup on it raises `KeyError`, aborting `main()` at that
point. -/
def mainFirstMissingKey : Option String :=
  main_read_keys.find? (fun k => !(handle_args_keys.contains k))

/-!
## Claim theorems
-/

/-- C1 (refuted, code bug): the per-tick sleep `sleep(1 / self.fps)` at
line 133 is NOT guarded for `fps ≤ 0`.  With `fps = 0` a tick with a
healthy device read raises `ZeroDivisionError`, which the `except` branch
turns into `stop_capturing` + `break`: the loop terminates through the
fault path instead of running unpaced.  Only the `capture.set` at line
106 is guarded (`deviceFpsSet = false`). -/
theorem c1_fps_zero_sleep_division_unguarded :
    captureTick false 0 (DeviceRead.okFrame 7)
      = TickOutcome.fault "ZeroDivisionError: division by zero" (some 7) ∧
    (captureRun (some 0) false CameraControl.init [DeviceRead.okFrame 7]).cc.capturing
      = false ∧
    (captureRun (some 0) false CameraControl.init [DeviceRead.okFrame 7]).deviceFpsSet
      = false := by
  refine ⟨?_, ?_, ?_⟩ <;> rfl

/-- C2 (refuted, code bug): `capture()` reads the attribute `fps`, but
`__init__` never assigns it (the frame-rate argument is stored as
`delay`), so the very first `capture()` call on a constructed daemon
raises `AttributeError` — before its capture loop ever runs. -/
theorem c2_fps_attribute_never_initialized :
    "fps" ∈ captureReadAttrs ∧
    "fps" ∉ camDaemonInitAttrs ∧
    (defaultDaemon.capture [DeviceRead.okFrame 7]).result
      = PyResult.exn "AttributeError: CamDaemon object has no attribute fps" := by
  refine ⟨by decide, by decide, rfl⟩

/-- C3 (refuted, code bug): the parser defines the destination `fps`
(`--fps`), but `main()` reads `params["delay"]` (line 256); `delay` is
not among the keys `handle_args` returns, so for every accepted argument
list `main()` raises `KeyError` at line 256, before constructing the
`CamDaemon`. -/
theorem c3_main_reads_missing_delay_key :
    mainFirstMissingKey = some "delay" ∧
    "delay" ∈ main_read_keys ∧
    "delay" ∉ handle_args_keys := by
  refine ⟨rfl, by decide, by decide⟩

/-- C4 (refuted, code bug): `cv2.rotate` runs at line 127-128 BEFORE the
`ret` check at line 129.  When the read returns `(False, None)` and the
rotate flag is set, rotating `None` raises, the `except` branch stops
capturing and breaks: the loop terminates instead of continuing (a later
healthy read is never processed).  Without the rotate flag the claimed
behaviour holds: nothing is published and the loop continues to the next
tick. -/
theorem c4_failed_read_with_rotate_terminates_loop :
    captureTick true 30 DeviceRead.noFrame
      = TickOutcome.fault "cv2.error: rotate on absent frame" none ∧
    captureTick false 30 DeviceRead.noFrame = TickOutcome.cont none (1 / 30) ∧
    (captureRun (some 30) true CameraControl.init
      [DeviceRead.noFrame, DeviceRead.okFrame 5]).published = [] ∧
    (captureRun (some 30) true CameraControl.init
      [DeviceRead.noFrame, DeviceRead.okFrame 5]).cc.capturing = false := by
  refine ⟨rfl, rfl, rfl, rfl⟩

/-- C5 counterexample: the store instance exposes `start_capturing`, which
sets the flag back to `true`.  The sequence `stop(); start()` contains a
stop yet leaves `is_capturing()` true, refuting "no operation available
on the store instance can make isCapturing() return true again". -/
theorem c5_counterexample_start_after_stop :
    CCOp.stop ∈ [CCOp.stop, CCOp.start] ∧
    (applyOps CameraControl.init [CCOp.stop, CCOp.start]).is_capturing = true := by
  exact ⟨by decide, rfl⟩

/-- Helper for C5: once `capturing` is false, any operation sequence that
avoids `start_capturing` leaves it false. -/
theorem applyOps_capturing_stays_false (ops : List CCOp) (cc : CameraControl)
    (hcc : cc.capturing = false) (hnostart : CCOp.start ∉ ops) :
    (applyOps cc ops).capturing = false := by
  induction ops generalizing cc with
  | nil => exact hcc
  | cons op rest ih =>
    have h2 : CCOp.start ∉ rest := fun h => hnostart (List.mem_cons_of_mem _ h)
    have h1 : (applyOp cc op).capturing = false := by
      cases op with
      | stop => rfl
      | start => exact absurd (List.mem_cons_self _ _) hnostart
      | publish f => exact hcc
    exact ih (applyOp cc op) h1 h2

/-- C5 (corrected): `stop_capturing` is idempotent, and after any
operation sequence that contains a stop and does not contain
`start_capturing`, `is_capturing()` is false.  (The unrestricted claim —
that NO available operation can re-enable the flag — is refuted by
`c5_counterexample_start_after_stop`.) -/
theorem c5_stop_idempotent_no_restart_without_start (cc : CameraControl)
    (ops : List CCOp) (hstop : CCOp.stop ∈ ops) (hnostart : CCOp.start ∉ ops) :
    (applyOps cc ops).is_capturing = false ∧
    cc.stop_capturing.stop_capturing = cc.stop_capturing := by
  refine ⟨?_, rfl⟩
  induction ops generalizing cc with
  | nil => exact absurd hstop (List.not_mem_nil _)
  | cons op rest ih =>
    have h2 : CCOp.start ∉ rest := fun h => hnostart (List.mem_cons_of_mem _ h)
    by_cases hop : op = CCOp.stop
    · subst hop
      exact applyOps_capturing_stays_false rest cc.stop_capturing rfl h2
    · have hstop' : CCOp.stop ∈ rest := by
        rcases List.mem_cons.mp hstop with h | h
        · exact absurd h.symm hop
        · exact h
      exact ih (applyOp cc op) hstop' h2

/-- C5 witness: the theorem applied to the store as constructed and the
sequence `stop(); publish(3)`. -/
theorem c5_witness :
    (CCOp.stop ∈ [CCOp.stop, CCOp.publish 3] ∧
      CCOp.start ∉ [CCOp.stop, CCOp.publish 3]) ∧
    ((applyOps CameraControl.init [CCOp.stop, CCOp.publish 3]).is_capturing = false ∧
      CameraControl.init.stop_capturing.stop_capturing
        = CameraControl.init.stop_capturing) :=
  ⟨⟨by decide, by decide⟩,
    c5_stop_idempotent_no_restart_without_start CameraControl.init
      [CCOp.stop, CCOp.publish 3] (by decide) (by decide)⟩

/-- C6 (confirmed): whenever `is_capturing()` is false or no frame has
ever been published (`img` is `None`), the snapshot handler returns a
success response with an empty body and mimetype `image/jpeg`, for every
encoder. -/
theorem c6_snap_empty_when_unavailable (cc : CameraControl)
    (enc : Frame → List Nat) (h : cc.is_capturing = false ∨ cc.img = none) :
    snap cc enc = ⟨true, [], "image/jpeg"⟩ := by
  obtain ⟨cap, img⟩ := cc
  rcases h with h | h
  · have hcap : cap = false := h
    subst hcap
    rfl
  · have himg : img = none := h
    subst himg
    cases cap <;> rfl

/-- C6 witness: the theorem applied to the freshly constructed store
(no frame published yet). -/
theorem c6_witness :
    (CameraControl.init.is_capturing = false ∨ CameraControl.init.img = none) ∧
    snap CameraControl.init (fun _ => [1, 2]) = ⟨true, [], "image/jpeg"⟩ :=
  ⟨Or.inr rfl,
    c6_snap_empty_when_unavailable CameraControl.init (fun _ => [1, 2]) (Or.inr rfl)⟩

/-- C7 counterexample: an iteration whose JPEG encode fails executes
`continue` (line 152), which jumps past the `sleep(0.1)` at line 153: the
iteration does not end by suspending for the poll interval, refuting
"every iteration — including iterations where JPEG encoding fails — ends
by suspending for the fixed poll interval". -/
theorem c7_counterexample_encode_failure_skips_sleep :
    (create_stream_frame_tick (some 0) (fun _ => EncodeResult.err "boom")).slept
      = false ∧
    (create_stream_frame_tick (some 0) (fun _ => EncodeResult.err "boom")).emitted
      = none ∧
    (create_stream_frame_tick (some 0) (fun _ => EncodeResult.err "boom")).logged
      = some "Failed to encode image: boom" := by
  exact ⟨rfl, rfl, rfl⟩

/-- C7 (corrected): an iteration reaches the fixed poll sleep exactly when
it is not an encode-failure iteration — iterations with an absent frame
or a successful encode end with the sleep; an encode-failure iteration
logs, emits no chunk, and skips the sleep (retrying immediately). -/
theorem c7_poll_cadence (img : Option Frame) (enc : Frame → EncodeResult) :
    ((create_stream_frame_tick img enc).slept = false
      ↔ ∃ f e, img = some f ∧ enc f = EncodeResult.err e) ∧
    ((create_stream_frame_tick img enc).emitted = none
      ↔ img = none ∨ ∃ f e, img = some f ∧ enc f = EncodeResult.err e) := by
  cases img with
  | none =>
    constructor
    · simp [create_stream_frame_tick]
    · simp [create_stream_frame_tick]
  | some f =>
    cases henc : enc f with
    | ok buf =>
      constructor
      · simp only [create_stream_frame_tick, henc]
        constructor
        · intro hfalse
          exact absurd hfalse (by simp)
        · rintro ⟨g, e, hg, hge⟩
          obtain rfl : f = g := Option.some.inj hg
          rw [henc] at hge
          exact absurd hge (by simp)
      · simp only [create_stream_frame_tick, henc]
        constructor
        · intro hnone
          exact absurd hnone (by simp)
        · rintro (h | ⟨g, e, hg, hge⟩)
          · exact absurd h (by simp)
          · obtain rfl : f = g := Option.some.inj hg
            rw [henc] at hge
            exact absurd hge (by simp)
    | err e =>
      have hs : (create_stream_frame_tick (some f) enc).slept = false := by
        simp [create_stream_frame_tick, henc]
      have he : (create_stream_frame_tick (some f) enc).emitted = none := by
        simp [create_stream_frame_tick, henc]
      exact ⟨⟨fun _ => ⟨f, e, rfl, henc⟩, fun _ => hs⟩,
        ⟨fun _ => Or.inr ⟨f, e, rfl, henc⟩, fun _ => he⟩⟩

/-- C8 (refuted, code bug): on an actual constructed daemon the `self.fps`
read at line 106 raises `AttributeError` after the device was opened at
lines 91-94 and before `capture.release()` at line 140, so that
invocation ends with the handle released zero times.  (The two exit paths
the loop itself has — normal fall-through after an external stop, and the
fault-branch `break` — do both reach the single `release`, as the last
two conjuncts show.) -/
theorem c8_release_skipped_on_attribute_error :
    (defaultDaemon.capture [DeviceRead.okFrame 7]).releases = 0 ∧
    (defaultDaemon.capture [DeviceRead.okFrame 7]).result ≠ PyResult.ok () ∧
    (captureRun (some 30) false CameraControl.init []).releases = 1 ∧
    (captureRun (some 30) false CameraControl.init
      [DeviceRead.raise "device disconnected"]).releases = 1 := by
  refine ⟨rfl, ?_, rfl, rfl⟩
  intro h
  exact PyResult.noConfusion h

/-- C9 (confirmed): in every serialised history of `update_image`
(publish) and `get_image` (latest) calls starting from the freshly
constructed store, each read returns either `none` (absent) or a frame
that was actually published in the history — never an out-of-existence
value.  (The store lock serialises the methods, so every concurrent
interleaving is such a linear history.) -/
theorem c9_latest_returns_only_published (evs : List StoreEvent)
    (r : Option Frame) (hr : r ∈ runTrace CameraControl.init evs) :
    r = none ∨ ∃ f, f ∈ publishedFrames evs ∧ r = some f := by
  rcases runTrace_mem evs CameraControl.init r hr with h | h
  · exact Or.inl h
  · exact Or.inr h

/-- C9 witness: the theorem applied to the history
`publish(5); read` and the read result `some 5`. -/
theorem c9_witness :
    some 5 ∈ runTrace CameraControl.init [StoreEvent.publish 5, StoreEvent.read] ∧
    ((some 5 : Option Frame) = none ∨
      ∃ f, f ∈ publishedFrames [StoreEvent.publish 5, StoreEvent.read] ∧
        (some 5 : Option Frame) = some f) :=
  ⟨by decide,
    c9_latest_returns_only_published [StoreEvent.publish 5, StoreEvent.read]
      (some 5) (by decide)⟩

/-- Helper for C10: the single byte-string literal the generator prepends
is exactly the boundary line, the content-type header line and the blank
line. -/
theorem asciiBytes_header_split :
    asciiBytes "--frame\r\nContent-Type: image/jpeg\r\n\r\n" =
      asciiBytes "--frame\r\n" ++ asciiBytes "Content-Type: image/jpeg\r\n"
        ++ asciiBytes "\r\n" := by
  decide

/-- C10 (confirmed): the chunk yielded for a present frame whose encode
succeeds is exactly the boundary marker line `--frame`, the
`Content-Type: image/jpeg` header line, a blank line, the JPEG bytes, and
a trailing line break. -/
theorem c10_chunk_framing (enc : Frame → EncodeResult) (f : Frame)
    (buf : List Nat) (henc : enc f = EncodeResult.ok buf) :
    (create_stream_frame_tick (some f) enc).emitted =
      some (asciiBytes "--frame\r\n" ++ asciiBytes "Content-Type: image/jpeg\r\n"
        ++ asciiBytes "\r\n" ++ buf ++ asciiBytes "\r\n") := by
  have h : (create_stream_frame_tick (some f) enc).emitted
      = some (streamChunk buf) := by
    simp [create_stream_frame_tick, henc]
  rw [h, streamChunk, asciiBytes_header_split]

/-- C10 witness: the theorem applied to a concrete frame and encoder. -/
theorem c10_witness :
    ((fun _ : Frame => EncodeResult.ok [9, 8]) 0 = EncodeResult.ok [9, 8]) ∧
    (create_stream_frame_tick (some 0) (fun _ => EncodeResult.ok [9, 8])).emitted =
      some (asciiBytes "--frame\r\n" ++ asciiBytes "Content-Type: image/jpeg\r\n"
        ++ asciiBytes "\r\n" ++ [9, 8] ++ asciiBytes "\r\n") :=
  ⟨rfl, c10_chunk_framing (fun _ => EncodeResult.ok [9, 8]) 0 [9, 8] rfl⟩
